import Mathlib

/-!
Shallow embedding of the sdl2_ttf binding layer (`src/sdl2_ttf/lib.rs`).

The binding is a thin FFI wrapper: each operation's behaviour is fully
determined by the arguments it passes to the foreign SDL2_ttf library and by
how it turns the foreign return values into host-side results.  Every binding
function is therefore embedded as a total Lean function that is parameterized
by the observable outcome of the foreign calls it makes (returned pointers,
return codes, the content of the process-wide foreign error slot right after
the call) and that produces both the list of foreign calls it performs (its
trace, in order) and its host-side result.  Raw foreign pointers are modelled
as natural numbers, with `0` standing for NULL.  A Rust panic (`unwrap` on a
`None`) is modelled as `Except.error`.

The companion `ffi` module of the crate is not part of the sources; the
numeric values of its constants (`TTF_STYLE_*`, `TTF_HINTING_*`) and the
behaviour of the foreign library itself (init counter, per-font style slot,
glyph table) are modelled from the spec, as marked on each such definition.
-/

/-- Rust `as u16` cast: truncation to the low 16 bits (`ch as u16`). -/
def castU16 (n : Nat) : Nat := n % 65536

/-- Rust `as c_int` cast from a 64-bit `int`: two's-complement truncation to
32 bits. -/
def castI32 (n : Int) : Int := (n + 2 ^ 31).emod (2 ^ 32) - 2 ^ 31

/-- Rust `as c_long` cast from a 64-bit `int`: two's-complement truncation to
64 bits (`c_long` is modelled as a 64-bit integer). -/
def castI64 (n : Int) : Int := (n + 2 ^ 63).emod (2 ^ 64) - 2 ^ 63

/-- The foreign 4-channel color struct `SDL_Color` (fields are `u8` values). -/
structure SDL_Color where
  r : Nat
  g : Nat
  b : Nat
  a : Nat
deriving DecidableEq, Repr

/-- The host color type `sdl2::pixels::Color`. -/
inductive Color where
  | RGB (r g b : Nat)
  | RGBA (r g b a : Nat)
deriving DecidableEq, Repr

/-- `color_to_c_color`: translation of a host color into the foreign
4-channel color. -/
def color_to_c_color : Color → SDL_Color
  | .RGB r g b => { r := r, g := g, b := b, a := 255 }
  | .RGBA r g b a => { r := r, g := g, b := b, a := a }

/-- Modelled from the spec: the style-bit constants come from the crate's
`ffi` module, which is not among the sources; the spec describes the style as
a bitset over normal/bold/italic/underline/strikethrough, modelled here with
the standard distinct bits. -/
def TTF_STYLE_NORMAL : Nat := 0

/-- Modelled from the spec: bold style bit (see `TTF_STYLE_NORMAL`). -/
def TTF_STYLE_BOLD : Nat := 1

/-- Modelled from the spec: italic style bit (see `TTF_STYLE_NORMAL`). -/
def TTF_STYLE_ITALIC : Nat := 2

/-- Modelled from the spec: underline style bit (see `TTF_STYLE_NORMAL`). -/
def TTF_STYLE_UNDERLINE : Nat := 4

/-- Modelled from the spec: strikethrough style bit (see
`TTF_STYLE_NORMAL`). -/
def TTF_STYLE_STRIKETHROUGH : Nat := 8

/-- `FontStyle`: the `bitflags!`-generated bitset of render styles. -/
structure FontStyle where
  bits : Nat
deriving DecidableEq, Repr

/-- The union of all defined style bits, used by `from_bits_truncate`. -/
def FontStyle.allBits : Nat :=
  TTF_STYLE_BOLD ||| TTF_STYLE_ITALIC ||| TTF_STYLE_UNDERLINE |||
    TTF_STYLE_STRIKETHROUGH

/-- `bitflags!`'s `from_bits_truncate`: keep only the defined bits. -/
def FontStyle.from_bits_truncate (n : Nat) : FontStyle :=
  { bits := n &&& FontStyle.allBits }

/-- The `StyleNormal` flag value (empty bitset). -/
def StyleNormal : FontStyle := { bits := TTF_STYLE_NORMAL }

/-- The `StyleBold` flag value. -/
def StyleBold : FontStyle := { bits := TTF_STYLE_BOLD }

/-- The `StyleItalic` flag value. -/
def StyleItalic : FontStyle := { bits := TTF_STYLE_ITALIC }

/-- The `Hinting` enum of the binding. -/
inductive Hinting where
  | HintingNormal
  | HintingLight
  | HintingMono
  | HintingNone
deriving DecidableEq, Repr

/-- Modelled from the spec: the `TTF_HINTING_*` discriminants come from the
crate's `ffi` module, which is not among the sources; the spec describes four
hinting modes (normal/light/mono/none), modelled with the standard values
0, 1, 2, 3. -/
def TTF_HINTING_NORMAL : Int := 0

/-- Modelled from the spec: light hinting value (see `TTF_HINTING_NORMAL`). -/
def TTF_HINTING_LIGHT : Int := 1

/-- Modelled from the spec: mono hinting value (see `TTF_HINTING_NORMAL`). -/
def TTF_HINTING_MONO : Int := 2

/-- Modelled from the spec: no-hinting value (see `TTF_HINTING_NORMAL`). -/
def TTF_HINTING_NONE : Int := 3

/-- `FromPrimitive::from_i32` for `Hinting`: `some` exactly on the four
enum discriminants. -/
def hintingFromI32 (n : Int) : Option Hinting :=
  if n = TTF_HINTING_NORMAL then some .HintingNormal
  else if n = TTF_HINTING_LIGHT then some .HintingLight
  else if n = TTF_HINTING_MONO then some .HintingMono
  else if n = TTF_HINTING_NONE then some .HintingNone
  else none

/-- `GlyphMetrics`: one glyph's bounding box and advance. -/
structure GlyphMetrics where
  minx : Int
  maxx : Int
  miny : Int
  maxy : Int
  advance : Int
deriving DecidableEq, Repr

/-- One foreign call made by the binding, with the arguments passed to it.
Latin-1 byte texts are `List Nat`; UTF-8 texts keep their host string. -/
inductive FCall where
  | TTF_WasInit
  | TTF_Init
  | TTF_Quit
  | TTF_CloseFont (raw : Nat)
  | TTF_OpenFont (path : List Nat) (ptsize : Int)
  | TTF_OpenFontIndex (path : List Nat) (ptsize : Int) (index : Int)
  | TTF_OpenFontRW (rw : Nat) (freesrc : Int) (ptsize : Int)
  | TTF_OpenFontIndexRW (rw : Nat) (freesrc : Int) (ptsize : Int) (index : Int)
  | SDL_GetError
  | TTF_GlyphIsProvided (font : Nat) (ch : Nat)
  | TTF_GlyphMetrics (font : Nat) (ch : Nat)
  | TTF_RenderText_Solid (font : Nat) (text : List Nat) (fg : SDL_Color)
  | TTF_RenderUTF8_Solid (font : Nat) (text : String) (fg : SDL_Color)
  | TTF_RenderGlyph_Solid (font : Nat) (ch : Nat) (fg : SDL_Color)
  | TTF_RenderText_Shaded (font : Nat) (text : List Nat) (fg bg : SDL_Color)
  | TTF_RenderUTF8_Shaded (font : Nat) (text : String) (fg bg : SDL_Color)
  | TTF_RenderGlyph_Shaded (font : Nat) (ch : Nat) (fg bg : SDL_Color)
  | TTF_RenderText_Blended (font : Nat) (text : List Nat) (fg : SDL_Color)
  | TTF_RenderUTF8_Blended (font : Nat) (text : String) (fg : SDL_Color)
  | TTF_RenderGlyph_Blended (font : Nat) (ch : Nat) (fg : SDL_Color)
deriving DecidableEq, Repr

/-- The `Font` handle: a raw foreign pointer plus the `owned` flag. -/
structure Font where
  raw : Nat
  owned : Bool
deriving DecidableEq, Repr

/-- The `Surface` handle of the companion sdl2 crate, as constructed by
`Surface::from_ll(raw, owned)`. -/
structure Surface where
  raw : Nat
  owned : Bool
deriving DecidableEq, Repr

/-- Modelled from the spec: the foreign library's process-wide state, a
reference-counted init counter backing the initialized flag.
`TTF_WasInit` reports this counter. -/
structure TTFState where
  initCount : Nat
deriving DecidableEq, Repr

/-- The foreign `TTF_WasInit` call: reports the init counter. -/
def ffi_TTF_WasInit (s : TTFState) : Int := Int.ofNat s.initCount

/-- Modelled from the spec: the foreign `TTF_Init` call.  `ok` is the oracle
for whether the foreign initialization succeeds; on success the counter is
incremented and 0 is returned, on failure the counter is unchanged and a
nonzero code is returned. -/
def ffi_TTF_Init (s : TTFState) (ok : Bool) : TTFState × Int :=
  if ok then ({ initCount := s.initCount + 1 }, 0) else (s, -1)

/-- `init()`: if `TTF_WasInit() == 1` return `true` without foreign init;
otherwise call `TTF_Init()` and report whether it returned 0.  Result:
(new foreign state, returned Bool, trace). -/
def init (s : TTFState) (ok : Bool) : TTFState × Bool × List FCall :=
  if ffi_TTF_WasInit s == 1 then
    (s, true, [FCall.TTF_WasInit])
  else
    let r := ffi_TTF_Init s ok
    (r.1, r.2 == 0, [FCall.TTF_WasInit, FCall.TTF_Init])

/-- `was_inited()`: `TTF_WasInit() == 1`. -/
def was_inited (s : TTFState) : Bool := ffi_TTF_WasInit s == 1

/-- `quit()`: unconditionally calls the foreign teardown. -/
def quit : List FCall := [FCall.TTF_Quit]

/-- `Drop for Font`: when `owned`, query `TTF_WasInit` and close the font
only if it returned 1.  `wasInitRet` is what the foreign `TTF_WasInit`
returns at destruction time; the result is the trace of foreign calls. -/
def Font.drop (self : Font) (wasInitRet : Int) : List FCall :=
  if self.owned then
    FCall.TTF_WasInit ::
      (if wasInitRet == 1 then [FCall.TTF_CloseFont self.raw] else [])
  else []

/-- `Font::from_file(filename, ptsize)`: call `TTF_OpenFont`; on a NULL
handle fetch the diagnostic with `get_error()` and fail, otherwise return an
owned handle.  `ret` is the pointer the foreign open call returns and `errS`
the content of the foreign error slot right after that call. -/
def Font.from_file (filename : List Nat) (ptsize : Int) (ret : Nat)
    (errS : String) : List FCall × Except String Font :=
  let call := FCall.TTF_OpenFont filename (castI32 ptsize)
  if ret == 0 then ([call, FCall.SDL_GetError], Except.error errS)
  else ([call], Except.ok { raw := ret, owned := true })

/-- `Font::from_file_index(filename, ptsize, index)`: as `from_file` through
`TTF_OpenFontIndex`. -/
def Font.from_file_index (filename : List Nat) (ptsize : Int) (index : Int)
    (ret : Nat) (errS : String) : List FCall × Except String Font :=
  let call := FCall.TTF_OpenFontIndex filename (castI32 ptsize) (castI64 index)
  if ret == 0 then ([call, FCall.SDL_GetError], Except.error errS)
  else ([call], Except.ok { raw := ret, owned := true })

/-- `LoaderRWops::load_font(ptsize)` for `RWops`: call `TTF_OpenFontRW` with
`freesrc = 0` (the foreign library must not close the stream); NULL handle
means failure with the fetched diagnostic, otherwise an owned handle. -/
def load_font (rw : Nat) (ptsize : Int) (ret : Nat) (errS : String) :
    List FCall × Except String Font :=
  let call := FCall.TTF_OpenFontRW rw 0 (castI32 ptsize)
  if ret == 0 then ([call, FCall.SDL_GetError], Except.error errS)
  else ([call], Except.ok { raw := ret, owned := true })

/-- `LoaderRWops::load_font_index(ptsize, index)` for `RWops`: as
`load_font` through `TTF_OpenFontIndexRW`, again with `freesrc = 0`. -/
def load_font_index (rw : Nat) (ptsize : Int) (index : Int) (ret : Nat)
    (errS : String) : List FCall × Except String Font :=
  let call := FCall.TTF_OpenFontIndexRW rw 0 (castI32 ptsize) (castI64 index)
  if ret == 0 then ([call, FCall.SDL_GetError], Except.error errS)
  else ([call], Except.ok { raw := ret, owned := true })

/-- `Font::get_style`: truncate the foreign style bits to the defined
flags.  `ret` is what `TTF_GetFontStyle` returns. -/
def Font.get_style (ret : Nat) : FontStyle := FontStyle.from_bits_truncate ret

/-- Modelled from the spec: the foreign font object's mutable render-style
slot.  The foreign library is not among the sources; per the spec's
round-trip property ("`set_style(Normal)` clears all style bits") the
foreign `TTF_SetFontStyle` stores the given bits, replacing the previous
value, and `TTF_GetFontStyle` reports the stored bits. -/
structure ForeignFontState where
  style : Nat
deriving DecidableEq, Repr

/-- Modelled from the spec: foreign `TTF_SetFontStyle` (see
`ForeignFontState`). -/
def ffi_TTF_SetFontStyle (_st : ForeignFontState) (bits : Nat) :
    ForeignFontState :=
  { style := bits }

/-- Modelled from the spec: foreign `TTF_GetFontStyle` (see
`ForeignFontState`). -/
def ffi_TTF_GetFontStyle (st : ForeignFontState) : Nat := st.style

/-- `Font::set_style(styles)`: pass `styles.bits()` to the foreign
`TTF_SetFontStyle`; returns the resulting foreign font state. -/
def Font.set_style (st : ForeignFontState) (styles : FontStyle) :
    ForeignFontState :=
  ffi_TTF_SetFontStyle st styles.bits

/-- `Font::get_outline`: the foreign `c_int` widened to `int` (identity). -/
def Font.get_outline (ret : Int) : Int := ret

/-- `Font::get_hinting`: decode the foreign hinting value with
`FromPrimitive::from_i32(...).unwrap()`.  The `unwrap` panics when the value
is not one of the four discriminants; the panic is modelled as
`Except.error`. -/
def Font.get_hinting (ret : Int) : Except String Hinting :=
  match hintingFromI32 ret with
  | some h => Except.ok h
  | none => Except.error "called Option.unwrap on a None value"

/-- `Font::get_kerning`: the foreign value compared against 0. -/
def Font.get_kerning (ret : Int) : Bool := ret != 0

/-- `Font::height`: the foreign `c_int` widened to `int` (identity). -/
def Font.height (ret : Int) : Int := ret

/-- `Font::ascent`: the foreign `c_int` widened to `int` (identity). -/
def Font.ascent (ret : Int) : Int := ret

/-- `Font::descent`: the foreign `c_int` widened to `int` (identity). -/
def Font.descent (ret : Int) : Int := ret

/-- `Font::line_skip`: the foreign `c_int` widened to `int` (identity). -/
def Font.line_skip (ret : Int) : Int := ret

/-- `Font::faces`: the foreign `c_long` widened to `int` (identity). -/
def Font.faces (ret : Int) : Int := ret

/-- `Font::face_is_fixed_width`: the foreign value compared against 0. -/
def Font.face_is_fixed_width (ret : Int) : Bool := ret != 0

/-- `Font::face_family_name`: `cname` is the foreign-returned name pointer:
`none` for NULL (the binding returns `None`), `some d` for a non-NULL C
string together with the outcome `d` of UTF-8 decoding its bytes (`none`
when the bytes are not valid UTF-8, in which case the source's
`as_str().unwrap()` panics, modelled as `Except.error`). -/
def Font.face_family_name : Option (Option String) →
    Except String (Option String)
  | none => Except.ok none
  | some none => Except.error "called Option.unwrap on a None value"
  | some (some s) => Except.ok (some s)

/-- `Font::face_style_name`: same shape as `face_family_name`. -/
def Font.face_style_name : Option (Option String) →
    Except String (Option String)
  | none => Except.ok none
  | some none => Except.error "called Option.unwrap on a None value"
  | some (some s) => Except.ok (some s)

/-- Modelled from the spec: the foreign font's glyph table, the part of the
foreign library behind `TTF_GlyphIsProvided` and `TTF_GlyphMetrics`.
`glyphIndex cp` is what `TTF_GlyphIsProvided` returns: 0 when the codepoint
is absent from the font's glyph table, the glyph's nonzero index otherwise.
`glyphMetricsRet cp` is the `TTF_GlyphMetrics` return code (0 = success) and
`glyphMetricsVal cp` the metrics it stores through its out-parameters on
success.  Metrics of an absent glyph cannot be computed, so the metrics call
fails on every absent codepoint. -/
structure ForeignFont where
  glyphIndex : Nat → Nat
  glyphMetricsRet : Nat → Int
  glyphMetricsVal : Nat → GlyphMetrics
  absent_metrics_fail : ∀ cp, glyphIndex cp = 0 → glyphMetricsRet cp ≠ 0

/-- `Font::index_of_char(ch)`: call `TTF_GlyphIsProvided` with `ch as u16`;
`None` when it returns 0, `Some(ret)` otherwise. -/
def Font.index_of_char (self : Font) (ff : ForeignFont) (ch : Nat) :
    List FCall × Option Nat :=
  let ret := ff.glyphIndex (castU16 ch)
  ([FCall.TTF_GlyphIsProvided self.raw (castU16 ch)],
    if ret == 0 then none else some ret)

/-- `Font::metrics_of_char(ch)`: call `TTF_GlyphMetrics` with `ch as u16`;
`None` when its return code is nonzero, otherwise the metrics read back from
the out-parameters. -/
def Font.metrics_of_char (self : Font) (ff : ForeignFont) (ch : Nat) :
    List FCall × Option GlyphMetrics :=
  let ret := ff.glyphMetricsRet (castU16 ch)
  ([FCall.TTF_GlyphMetrics self.raw (castU16 ch)],
    if ret != 0 then none else some (ff.glyphMetricsVal (castU16 ch)))

/-- The message of the task failure raised by the checked `with_c_str`
conversion when the text contains an interior NUL byte; the panic happens
before any foreign call is made. -/
def cstrPanicMsg : String := "task failed: interior NUL byte in C string"

/-- `with_c_str`'s checked conversion test for a Latin-1 byte text: the
conversion fails the task (panics) iff the text has an interior NUL byte. -/
def bytesHasInteriorNul (text : List Nat) : Bool := text.contains 0

/-- `with_c_str`'s checked conversion test for a UTF-8 string: the
conversion fails the task (panics) iff the string has an interior NUL
character. -/
def strHasInteriorNul (text : String) : Bool :=
  text.data.contains (Char.ofNat 0)

/-- `Font::render_bytes_solid(text, fg)`: convert the Latin-1 text with the
checked `with_c_str` (on an interior NUL byte the task fails before any
foreign call — the outer `Except.error`), then render through
`TTF_RenderText_Solid`; a NULL surface means failure with the diagnostic
fetched right after the call, otherwise an owned `Surface`.  `ret` is the
surface pointer the foreign render call returns and `errS` the content of
the foreign error slot right after that call. -/
def Font.render_bytes_solid (self : Font) (text : List Nat) (fg : Color)
    (ret : Nat) (errS : String) :
    Except String (List FCall × Except String Surface) :=
  if bytesHasInteriorNul text then Except.error cstrPanicMsg
  else
    let call := FCall.TTF_RenderText_Solid self.raw text (color_to_c_color fg)
    if ret == 0 then Except.ok ([call, FCall.SDL_GetError], Except.error errS)
    else Except.ok ([call], Except.ok { raw := ret, owned := true })

/-- `Font::render_str_solid(text, fg)`: UTF-8 variant of solid rendering,
with the same checked `with_c_str` conversion (panic on interior NUL). -/
def Font.render_str_solid (self : Font) (text : String) (fg : Color)
    (ret : Nat) (errS : String) :
    Except String (List FCall × Except String Surface) :=
  if strHasInteriorNul text then Except.error cstrPanicMsg
  else
    let call := FCall.TTF_RenderUTF8_Solid self.raw text (color_to_c_color fg)
    if ret == 0 then Except.ok ([call, FCall.SDL_GetError], Except.error errS)
    else Except.ok ([call], Except.ok { raw := ret, owned := true })

/-- `Font::render_char_solid(ch, fg)`: single-glyph variant of solid
rendering; the codepoint is passed as `ch as u16`. -/
def Font.render_char_solid (self : Font) (ch : Nat) (fg : Color)
    (ret : Nat) (errS : String) : List FCall × Except String Surface :=
  let call :=
    FCall.TTF_RenderGlyph_Solid self.raw (castU16 ch) (color_to_c_color fg)
  if ret == 0 then ([call, FCall.SDL_GetError], Except.error errS)
  else ([call], Except.ok { raw := ret, owned := true })

/-- `Font::render_bytes_shaded(text, fg, bg)`: Latin-1 shaded rendering,
with the same checked `with_c_str` conversion (panic on interior NUL). -/
def Font.render_bytes_shaded (self : Font) (text : List Nat) (fg bg : Color)
    (ret : Nat) (errS : String) :
    Except String (List FCall × Except String Surface) :=
  if bytesHasInteriorNul text then Except.error cstrPanicMsg
  else
    let call :=
      FCall.TTF_RenderText_Shaded self.raw text (color_to_c_color fg)
        (color_to_c_color bg)
    if ret == 0 then Except.ok ([call, FCall.SDL_GetError], Except.error errS)
    else Except.ok ([call], Except.ok { raw := ret, owned := true })

/-- `Font::render_str_shaded(text, fg, bg)`: UTF-8 shaded rendering, with
the same checked `with_c_str` conversion (panic on interior NUL). -/
def Font.render_str_shaded (self : Font) (text : String) (fg bg : Color)
    (ret : Nat) (errS : String) :
    Except String (List FCall × Except String Surface) :=
  if strHasInteriorNul text then Except.error cstrPanicMsg
  else
    let call :=
      FCall.TTF_RenderUTF8_Shaded self.raw text (color_to_c_color fg)
        (color_to_c_color bg)
    if ret == 0 then Except.ok ([call, FCall.SDL_GetError], Except.error errS)
    else Except.ok ([call], Except.ok { raw := ret, owned := true })

/-- `Font::render_char_shaded(ch, fg, bg)`: single-glyph shaded rendering;
the codepoint is passed as `ch as u16`. -/
def Font.render_char_shaded (self : Font) (ch : Nat) (fg bg : Color)
    (ret : Nat) (errS : String) : List FCall × Except String Surface :=
  let call :=
    FCall.TTF_RenderGlyph_Shaded self.raw (castU16 ch) (color_to_c_color fg)
      (color_to_c_color bg)
  if ret == 0 then ([call, FCall.SDL_GetError], Except.error errS)
  else ([call], Except.ok { raw := ret, owned := true })

/-- `Font::render_bytes_blended(text, fg)`: Latin-1 blended rendering, with
the same checked `with_c_str` conversion (panic on interior NUL). -/
def Font.render_bytes_blended (self : Font) (text : List Nat) (fg : Color)
    (ret : Nat) (errS : String) :
    Except String (List FCall × Except String Surface) :=
  if bytesHasInteriorNul text then Except.error cstrPanicMsg
  else
    let call :=
      FCall.TTF_RenderText_Blended self.raw text (color_to_c_color fg)
    if ret == 0 then Except.ok ([call, FCall.SDL_GetError], Except.error errS)
    else Except.ok ([call], Except.ok { raw := ret, owned := true })

/-- `Font::render_str_blended(text, fg)`: UTF-8 blended rendering, with the
same checked `with_c_str` conversion (panic on interior NUL). -/
def Font.render_str_blended (self : Font) (text : String) (fg : Color)
    (ret : Nat) (errS : String) :
    Except String (List FCall × Except String Surface) :=
  if strHasInteriorNul text then Except.error cstrPanicMsg
  else
    let call :=
      FCall.TTF_RenderUTF8_Blended self.raw text (color_to_c_color fg)
    if ret == 0 then Except.ok ([call, FCall.SDL_GetError], Except.error errS)
    else Except.ok ([call], Except.ok { raw := ret, owned := true })

/-- `Font::render_char_blended(ch, fg)`: single-glyph blended rendering;
the codepoint is passed as `ch as u16`. -/
def Font.render_char_blended (self : Font) (ch : Nat) (fg : Color)
    (ret : Nat) (errS : String) : List FCall × Except String Surface :=
  let call :=
    FCall.TTF_RenderGlyph_Blended self.raw (castU16 ch) (color_to_c_color fg)
  if ret == 0 then ([call, FCall.SDL_GetError], Except.error errS)
  else ([call], Except.ok { raw := ret, owned := true })

/-- Specification of one fallible render entry point, in the claim's terms:
the operation succeeds exactly when the foreign call returned a non-NULL
surface; on failure the error carries the slot content `errS` from right
after the failing call and the trace is the failing call immediately
followed by `SDL_GetError` with nothing in between; on success the trace is
just the render call and the surface is marked owned. -/
def RenderSpecOK (call : FCall) (out : List FCall × Except String Surface)
    (ret : Nat) (errS : String) : Prop :=
  ((∃ s, out.2 = Except.ok s) ↔ ret ≠ 0) ∧
  (ret = 0 → out = ([call, FCall.SDL_GetError], Except.error errS)) ∧
  (∀ s, out.2 = Except.ok s → s.owned = true) ∧
  (ret ≠ 0 → out = ([call], Except.ok { raw := ret, owned := true }))

/-- Specification of one fallible font-open entry point, in the claim's
terms: analogous to `RenderSpecOK` with a `Font` result. -/
def OpenSpecOK (call : FCall) (out : List FCall × Except String Font)
    (ret : Nat) (errS : String) : Prop :=
  ((∃ f, out.2 = Except.ok f) ↔ ret ≠ 0) ∧
  (ret = 0 → out = ([call, FCall.SDL_GetError], Except.error errS)) ∧
  (∀ f, out.2 = Except.ok f → f.owned = true) ∧
  (ret ≠ 0 → out = ([call], Except.ok { raw := ret, owned := true }))

theorem renderSpec_of_branch (call : FCall) (ret : Nat) (errS : String) :
    RenderSpecOK call
      (if ret == 0 then ([call, FCall.SDL_GetError], Except.error errS)
       else ([call], Except.ok { raw := ret, owned := true }))
      ret errS := by
  by_cases h : ret = 0 <;> simp [RenderSpecOK, h]

theorem openSpec_of_branch (call : FCall) (ret : Nat) (errS : String) :
    OpenSpecOK call
      (if ret == 0 then ([call, FCall.SDL_GetError], Except.error errS)
       else ([call], Except.ok { raw := ret, owned := true }))
      ret errS := by
  by_cases h : ret = 0 <;> simp [OpenSpecOK, h]

/-- Claim C1: `Drop for Font` invokes the foreign `TTF_CloseFont` if and
only if the handle's `owned` flag is true and the library state still
reports initialized (`TTF_WasInit` returns 1) at destruction time; in every
other case no foreign release happens. -/
theorem font_drop_releases_iff (f : Font) (w : Int) :
    (FCall.TTF_CloseFont f.raw ∈ Font.drop f w ↔ f.owned = true ∧ w = 1) ∧
    (∀ r, FCall.TTF_CloseFont r ∈ Font.drop f w →
      r = f.raw ∧ f.owned = true ∧ w = 1) := by
  obtain ⟨raw, owned⟩ := f
  by_cases ho : owned = true <;> by_cases hw : w = 1 <;>
    simp [Font.drop, ho, hw]

theorem font_drop_releases_iff_witness :
    FCall.TTF_CloseFont 7 ∈ Font.drop { raw := 7, owned := true } 1 :=
  (font_drop_releases_iff { raw := 7, owned := true } 1).1.mpr ⟨rfl, rfl⟩

/-- Claim C4: `init()` is idempotent.  If the library already reports
initialized, `init` returns `true` with no foreign `TTF_Init` in its trace;
otherwise it performs the foreign init exactly once and returns `true` iff
that call succeeded.  From an uninitialized state, two successive calls
(the first with a succeeding foreign init) both return `true` and
`was_inited` reports `true` after either call. -/
theorem init_idempotent (s : TTFState) (ok : Bool) :
    (was_inited s = true → init s ok = (s, true, [FCall.TTF_WasInit])) ∧
    (was_inited s = false →
      (init s ok).2.2 = [FCall.TTF_WasInit, FCall.TTF_Init] ∧
      ((init s ok).2.1 = true ↔ ok = true)) ∧
    (s.initCount = 0 →
      (init s true).2.1 = true ∧
      was_inited (init s true).1 = true ∧
      (init (init s true).1 ok).2.1 = true ∧
      was_inited (init (init s true).1 ok).1 = true ∧
      (init (init s true).1 ok).2.2 = [FCall.TTF_WasInit]) := by
  obtain ⟨n⟩ := s
  refine ⟨fun h => ?_, fun h => ?_, fun h => ?_⟩
  · simp only [was_inited] at h
    simp [init, h]
  · simp only [was_inited] at h
    cases ok <;> simp [init, ffi_TTF_Init, h]
  · simp only at h
    subst h
    cases ok <;> simp [init, was_inited, ffi_TTF_WasInit, ffi_TTF_Init]

theorem init_idempotent_witness :
    (init { initCount := 0 } true).2.1 = true ∧
    was_inited (init { initCount := 0 } true).1 = true ∧
    (init (init { initCount := 0 } true).1 true).2.1 = true ∧
    was_inited (init (init { initCount := 0 } true).1 true).1 = true :=
  ⟨((init_idempotent { initCount := 0 } true).2.2 rfl).1,
   ((init_idempotent { initCount := 0 } true).2.2 rfl).2.1,
   ((init_idempotent { initCount := 0 } true).2.2 rfl).2.2.1,
   ((init_idempotent { initCount := 0 } true).2.2 rfl).2.2.2.1⟩

/-- Claim C5: `color_to_c_color` is a pure total translation: an RGB color
becomes the foreign color with alpha 255, an RGBA color keeps its alpha. -/
theorem color_to_c_color_spec :
    (∀ r g b : Nat, color_to_c_color (Color.RGB r g b) =
      { r := r, g := g, b := b, a := 255 }) ∧
    (∀ r g b a : Nat, color_to_c_color (Color.RGBA r g b a) =
      { r := r, g := g, b := b, a := a }) :=
  ⟨fun _ _ _ => rfl, fun _ _ _ _ => rfl⟩

/-- Claim C8: style round-trip through the foreign style slot: whatever the
previous foreign style was, `set_style(StyleBold)` followed by `get_style`
yields the bitset containing exactly Bold, and `set_style(StyleNormal)`
followed by `get_style` yields the bitset with all style bits cleared. -/
theorem style_roundtrip (st : ForeignFontState) :
    Font.get_style (ffi_TTF_GetFontStyle (Font.set_style st StyleBold)) =
      StyleBold ∧
    Font.get_style (ffi_TTF_GetFontStyle (Font.set_style st StyleNormal)) =
      StyleNormal ∧
    StyleBold.bits = TTF_STYLE_BOLD ∧ StyleNormal.bits = 0 := by
  simp only [Font.get_style, Font.set_style, ffi_TTF_SetFontStyle,
    ffi_TTF_GetFontStyle, FontStyle.from_bits_truncate]
  refine ⟨?_, ?_, rfl, rfl⟩ <;> decide

/-- Claim C2 counterexample: the original claim fails on a text containing
an interior NUL byte.  At text `[0]`, even with a non-NULL foreign outcome
(`ret = 1`), `render_bytes_solid` does not return a `Result` at all: the
checked `with_c_str` conversion fails the task (panics) before any foreign
call is made, so the operation neither returns a success `Surface` nor an
`Err` tied to a foreign render call. -/
theorem render_nul_panic_cex :
    Font.render_bytes_solid { raw := 5, owned := true } [0] (Color.RGB 1 2 3)
      1 "e" = Except.error cstrPanicMsg := by
  simp [Font.render_bytes_solid, bytesHasInteriorNul]

/-- Claim C2 (as amended): for every render operation and every input whose
text has no interior NUL byte (for the single-character variants: every
input) the operation returns `Err` exactly when the foreign render call
returns a NULL surface, the error carries the foreign diagnostic fetched
immediately after the failing call with no intervening foreign call, and on
success the returned `Surface` is marked owned; on a text with an interior
NUL byte the checked `with_c_str` conversion panics before any foreign call
is made. -/
theorem render_error_iff_null (f : Font) (bt : List Nat) (ut : String)
    (ch : Nat) (fg bg : Color) (ret : Nat) (errS : String) :
    (bytesHasInteriorNul bt = false →
      (∃ out, Font.render_bytes_solid f bt fg ret errS = Except.ok out ∧
        RenderSpecOK
          (FCall.TTF_RenderText_Solid f.raw bt (color_to_c_color fg))
          out ret errS) ∧
      (∃ out, Font.render_bytes_shaded f bt fg bg ret errS = Except.ok out ∧
        RenderSpecOK
          (FCall.TTF_RenderText_Shaded f.raw bt (color_to_c_color fg)
            (color_to_c_color bg)) out ret errS) ∧
      (∃ out, Font.render_bytes_blended f bt fg ret errS = Except.ok out ∧
        RenderSpecOK
          (FCall.TTF_RenderText_Blended f.raw bt (color_to_c_color fg))
          out ret errS)) ∧
    (strHasInteriorNul ut = false →
      (∃ out, Font.render_str_solid f ut fg ret errS = Except.ok out ∧
        RenderSpecOK
          (FCall.TTF_RenderUTF8_Solid f.raw ut (color_to_c_color fg))
          out ret errS) ∧
      (∃ out, Font.render_str_shaded f ut fg bg ret errS = Except.ok out ∧
        RenderSpecOK
          (FCall.TTF_RenderUTF8_Shaded f.raw ut (color_to_c_color fg)
            (color_to_c_color bg)) out ret errS) ∧
      (∃ out, Font.render_str_blended f ut fg ret errS = Except.ok out ∧
        RenderSpecOK
          (FCall.TTF_RenderUTF8_Blended f.raw ut (color_to_c_color fg))
          out ret errS)) ∧
    RenderSpecOK
      (FCall.TTF_RenderGlyph_Solid f.raw (castU16 ch) (color_to_c_color fg))
      (Font.render_char_solid f ch fg ret errS) ret errS ∧
    RenderSpecOK
      (FCall.TTF_RenderGlyph_Shaded f.raw (castU16 ch) (color_to_c_color fg)
        (color_to_c_color bg))
      (Font.render_char_shaded f ch fg bg ret errS) ret errS ∧
    RenderSpecOK
      (FCall.TTF_RenderGlyph_Blended f.raw (castU16 ch) (color_to_c_color fg))
      (Font.render_char_blended f ch fg ret errS) ret errS ∧
    (bytesHasInteriorNul bt = true →
      Font.render_bytes_solid f bt fg ret errS = Except.error cstrPanicMsg ∧
      Font.render_bytes_shaded f bt fg bg ret errS =
        Except.error cstrPanicMsg ∧
      Font.render_bytes_blended f bt fg ret errS =
        Except.error cstrPanicMsg) ∧
    (strHasInteriorNul ut = true →
      Font.render_str_solid f ut fg ret errS = Except.error cstrPanicMsg ∧
      Font.render_str_shaded f ut fg bg ret errS =
        Except.error cstrPanicMsg ∧
      Font.render_str_blended f ut fg ret errS =
        Except.error cstrPanicMsg) := by
  refine ⟨fun h => ⟨?_, ?_, ?_⟩, fun h => ⟨?_, ?_, ?_⟩,
    renderSpec_of_branch _ ret errS, renderSpec_of_branch _ ret errS,
    renderSpec_of_branch _ ret errS,
    fun h => ⟨?_, ?_, ?_⟩, fun h => ⟨?_, ?_, ?_⟩⟩
  · exact ⟨_, by simp [Font.render_bytes_solid, h]; split <;> rfl,
      renderSpec_of_branch _ ret errS⟩
  · exact ⟨_, by simp [Font.render_bytes_shaded, h]; split <;> rfl,
      renderSpec_of_branch _ ret errS⟩
  · exact ⟨_, by simp [Font.render_bytes_blended, h]; split <;> rfl,
      renderSpec_of_branch _ ret errS⟩
  · exact ⟨_, by simp [Font.render_str_solid, h]; split <;> rfl,
      renderSpec_of_branch _ ret errS⟩
  · exact ⟨_, by simp [Font.render_str_shaded, h]; split <;> rfl,
      renderSpec_of_branch _ ret errS⟩
  · exact ⟨_, by simp [Font.render_str_blended, h]; split <;> rfl,
      renderSpec_of_branch _ ret errS⟩
  · simp [Font.render_bytes_solid, h]
  · simp [Font.render_bytes_shaded, h]
  · simp [Font.render_bytes_blended, h]
  · simp [Font.render_str_solid, h]
  · simp [Font.render_str_shaded, h]
  · simp [Font.render_str_blended, h]

theorem render_error_iff_null_witness :
    Font.render_bytes_solid { raw := 5, owned := true } [72]
        (Color.RGB 1 2 3) 0 "boom" =
      Except.ok
        ([FCall.TTF_RenderText_Solid 5 [72]
            { r := 1, g := 2, b := 3, a := 255 },
          FCall.SDL_GetError], Except.error "boom") := by
  obtain ⟨out, hout, hspec⟩ :=
    ((render_error_iff_null { raw := 5, owned := true } [72] "hi" 65
        (Color.RGB 1 2 3) (Color.RGB 9 9 9) 0 "boom").1 (by decide)).1
  rw [hout]
  exact congrArg Except.ok (hspec.2.1 rfl)

/-- Claim C3: every font construction operation (`from_file`,
`from_file_index`, and the two loader-capability variants) returns `Err`
carrying the last foreign diagnostic exactly when the foreign open call
returns a NULL handle, and on success returns a `Font` whose `owned` flag is
true. -/
theorem open_error_iff_null (path : List Nat) (ptsize index : Int)
    (rw ret : Nat) (errS : String) :
    OpenSpecOK (FCall.TTF_OpenFont path (castI32 ptsize))
      (Font.from_file path ptsize ret errS) ret errS ∧
    OpenSpecOK (FCall.TTF_OpenFontIndex path (castI32 ptsize) (castI64 index))
      (Font.from_file_index path ptsize index ret errS) ret errS ∧
    OpenSpecOK (FCall.TTF_OpenFontRW rw 0 (castI32 ptsize))
      (load_font rw ptsize ret errS) ret errS ∧
    OpenSpecOK
      (FCall.TTF_OpenFontIndexRW rw 0 (castI32 ptsize) (castI64 index))
      (load_font_index rw ptsize index ret errS) ret errS :=
  ⟨openSpec_of_branch _ ret errS, openSpec_of_branch _ ret errS,
   openSpec_of_branch _ ret errS, openSpec_of_branch _ ret errS⟩

theorem open_error_iff_null_witness :
    Font.from_file [47] 24 9 "e" =
      ([FCall.TTF_OpenFont [47] (castI32 24)],
        Except.ok { raw := 9, owned := true }) :=
  (open_error_iff_null [47] 24 0 3 9 "e").1.2.2.2 (by decide)

/-- Claim C9: both loader-capability operations pass the stream's raw handle
to the foreign read-from-stream entry point with the ownership-transfer
(`freesrc`) argument set to 0: the first foreign call is the open call with
`freesrc = 0`, and every read-from-stream call in either trace carries
`freesrc = 0`. -/
theorem load_font_no_auto_close (rw : Nat) (ptsize index : Int) (ret : Nat)
    (errS : String) :
    (load_font rw ptsize ret errS).1.head? =
      some (FCall.TTF_OpenFontRW rw 0 (castI32 ptsize)) ∧
    (load_font_index rw ptsize index ret errS).1.head? =
      some (FCall.TTF_OpenFontIndexRW rw 0 (castI32 ptsize) (castI64 index)) ∧
    (∀ r fs p, FCall.TTF_OpenFontRW r fs p ∈ (load_font rw ptsize ret errS).1 →
      fs = 0) ∧
    (∀ r fs p i, FCall.TTF_OpenFontIndexRW r fs p i ∈
      (load_font_index rw ptsize index ret errS).1 → fs = 0) := by
  refine ⟨?_, ?_, ?_, ?_⟩
  · by_cases h : ret = 0 <;> simp [load_font, h]
  · by_cases h : ret = 0 <;> simp [load_font_index, h]
  · intro r fs p hm
    by_cases h : ret = 0 <;> simp [load_font, h] at hm <;> exact hm.2.1
  · intro r fs p i hm
    by_cases h : ret = 0 <;> simp [load_font_index, h] at hm <;> exact hm.2.1

theorem load_font_no_auto_close_witness :
    (load_font 11 24 5 "e").1.head? =
      some (FCall.TTF_OpenFontRW 11 0 (castI32 24)) :=
  (load_font_no_auto_close 11 24 0 5 "e").1

/-- Claim C6: for every font and codepoint, if the codepoint is absent from
the foreign font's glyph table, `index_of_char` returns `None` and
`metrics_of_char` returns `None`; when the glyph is available,
`index_of_char` returns `Some(index)`, and when metrics can be computed,
`metrics_of_char` returns `Some` of the metrics the foreign call filled
in. -/
theorem glyph_queries_absent_none (f : Font) (ff : ForeignFont) (ch : Nat) :
    (ff.glyphIndex (castU16 ch) = 0 →
      (Font.index_of_char f ff ch).2 = none ∧
      (Font.metrics_of_char f ff ch).2 = none) ∧
    (ff.glyphIndex (castU16 ch) ≠ 0 →
      (Font.index_of_char f ff ch).2 = some (ff.glyphIndex (castU16 ch))) ∧
    (ff.glyphMetricsRet (castU16 ch) = 0 →
      (Font.metrics_of_char f ff ch).2 =
        some (ff.glyphMetricsVal (castU16 ch))) := by
  refine ⟨fun h => ⟨?_, ?_⟩, fun h => ?_, fun h => ?_⟩
  · simp [Font.index_of_char, h]
  · have hm := ff.absent_metrics_fail _ h
    simp [Font.metrics_of_char, hm]
  · simp [Font.index_of_char, h]
  · simp [Font.metrics_of_char, h]

/-- A concrete foreign font with an empty glyph table, for evaluating the
glyph-query theorems. -/
def demoForeignFont : ForeignFont where
  glyphIndex := fun _ => 0
  glyphMetricsRet := fun _ => 1
  glyphMetricsVal :=
    fun _ => { minx := 0, maxx := 0, miny := 0, maxy := 0, advance := 0 }
  absent_metrics_fail := fun _ _ => one_ne_zero

theorem glyph_queries_absent_none_witness :
    (Font.index_of_char { raw := 3, owned := true } demoForeignFont 65).2 =
      none ∧
    (Font.metrics_of_char { raw := 3, owned := true } demoForeignFont 65).2 =
      none :=
  (glyph_queries_absent_none { raw := 3, owned := true }
    demoForeignFont 65).1 rfl

/-- Claim C10: the single-character operations pass `ch as u16`
to the foreign library, so a codepoint at or above `2 ^ 16` is silently
reduced modulo `2 ^ 16` (a genuinely different codepoint) rather than
rejected. -/
theorem char_ops_truncate_u16 (f : Font) (ff : ForeignFont) (ch : Nat)
    (fg bg : Color) (ret : Nat) (errS : String) (h : 65536 ≤ ch) :
    (Font.index_of_char f ff ch).1 =
      [FCall.TTF_GlyphIsProvided f.raw (ch % 65536)] ∧
    (Font.metrics_of_char f ff ch).1 =
      [FCall.TTF_GlyphMetrics f.raw (ch % 65536)] ∧
    (Font.render_char_solid f ch fg ret errS).1.head? =
      some (FCall.TTF_RenderGlyph_Solid f.raw (ch % 65536)
        (color_to_c_color fg)) ∧
    (Font.render_char_shaded f ch fg bg ret errS).1.head? =
      some (FCall.TTF_RenderGlyph_Shaded f.raw (ch % 65536)
        (color_to_c_color fg) (color_to_c_color bg)) ∧
    (Font.render_char_blended f ch fg ret errS).1.head? =
      some (FCall.TTF_RenderGlyph_Blended f.raw (ch % 65536)
        (color_to_c_color fg)) ∧
    ch % 65536 ≠ ch := by
  refine ⟨rfl, rfl, ?_, ?_, ?_, by omega⟩ <;>
    by_cases hr : ret = 0 <;>
      simp [Font.render_char_solid, Font.render_char_shaded,
        Font.render_char_blended, hr, castU16]

theorem char_ops_truncate_u16_witness :
    (Font.index_of_char { raw := 3, owned := true } demoForeignFont
      128512).1 = [FCall.TTF_GlyphIsProvided 3 62976] ∧
    128512 % 65536 ≠ 128512 :=
  ⟨(char_ops_truncate_u16 { raw := 3, owned := true } demoForeignFont 128512
      (Color.RGB 1 2 3) (Color.RGB 4 5 6) 0 "e" (by decide)).1,
   (char_ops_truncate_u16 { raw := 3, owned := true } demoForeignFont 128512
      (Color.RGB 1 2 3) (Color.RGB 4 5 6) 0 "e" (by decide)).2.2.2.2.2⟩

/-- Claim C7 counterexample: `get_hinting` is not total over every value the
foreign library may report: at a foreign hinting value of 4 (outside the
four defined modes) the source's `FromPrimitive::from_i32(...).unwrap()`
panics, modelled as `Except.error`. -/
theorem get_hinting_panic_cex :
    Font.get_hinting 4 =
      Except.error "called Option.unwrap on a None value" := by
  simp [Font.get_hinting, hintingFromI32, TTF_HINTING_NORMAL,
    TTF_HINTING_LIGHT, TTF_HINTING_MONO, TTF_HINTING_NONE]

/-- Claim C7 (as amended): the accessors are pure and total except for the
panic paths the source keeps: `get_hinting` returns a value exactly when the
foreign hinting value is one of the four defined modes (0, 1, 2, 3) and
panics otherwise; `face_family_name` and `face_style_name` return a value
(None for a NULL name, Some for a decodable one) exactly when the foreign
name is NULL or valid UTF-8, and panic on non-UTF-8 name bytes; the
remaining accessors (`get_style`, `get_outline`, `get_kerning`, `height`,
`ascent`, `descent`, `line_skip`, `faces`, `face_is_fixed_width`) always
return a value, for every value the foreign library may report. -/
theorem accessors_total_amended :
    (∀ ret : Int, (∃ hv, Font.get_hinting ret = Except.ok hv) ↔
      (ret = 0 ∨ ret = 1 ∨ ret = 2 ∨ ret = 3)) ∧
    (∀ c, (∃ v, Font.face_family_name c = Except.ok v) ↔ c ≠ some none) ∧
    (∀ c, (∃ v, Font.face_style_name c = Except.ok v) ↔ c ≠ some none) ∧
    (∀ ret : Nat, Font.get_style ret = FontStyle.from_bits_truncate ret) ∧
    (∀ ret : Int, Font.get_kerning ret = (ret != 0) ∧
      Font.face_is_fixed_width ret = (ret != 0) ∧
      Font.get_outline ret = ret ∧ Font.height ret = ret ∧
      Font.ascent ret = ret ∧ Font.descent ret = ret ∧
      Font.line_skip ret = ret ∧ Font.faces ret = ret) := by
  refine ⟨?_, ?_, ?_, fun ret => rfl,
    fun ret => ⟨rfl, rfl, rfl, rfl, rfl, rfl, rfl, rfl⟩⟩
  · intro ret
    constructor
    · rintro ⟨hv, hh⟩
      by_cases h0 : ret = 0
      · exact Or.inl h0
      by_cases h1 : ret = 1
      · exact Or.inr (Or.inl h1)
      by_cases h2 : ret = 2
      · exact Or.inr (Or.inr (Or.inl h2))
      by_cases h3 : ret = 3
      · exact Or.inr (Or.inr (Or.inr h3))
      simp [Font.get_hinting, hintingFromI32, TTF_HINTING_NORMAL,
        TTF_HINTING_LIGHT, TTF_HINTING_MONO, TTF_HINTING_NONE,
        h0, h1, h2, h3] at hh
    · rintro (rfl | rfl | rfl | rfl)
      · exact ⟨Hinting.HintingNormal, rfl⟩
      · exact ⟨Hinting.HintingLight, rfl⟩
      · exact ⟨Hinting.HintingMono, rfl⟩
      · exact ⟨Hinting.HintingNone, rfl⟩
  · rintro (_ | (_ | s)) <;> simp [Font.face_family_name]
  · rintro (_ | (_ | s)) <;> simp [Font.face_style_name]

theorem accessors_total_amended_witness :
    (∃ hv, Font.get_hinting 2 = Except.ok hv) ∧
    (∃ v, Font.face_family_name (some (some "Sans")) = Except.ok v) :=
  ⟨(accessors_total_amended.1 2).mpr (Or.inr (Or.inr (Or.inl rfl))),
   (accessors_total_amended.2.1 (some (some "Sans"))).mpr (by simp)⟩
